import Mathlib

/-!
Shallow embedding of the `framework-db` tracing layer (GORM trace plugin,
Redis trace hook, SQL renderer and operation classifier) from
`src/postgresql.go`, together with proofs about the spec's claims.

Machine strings are modelled as Lean `String`/`List Char`; the SQL text the
code handles is ASCII, where Go's byte-level `len`/`strings.Index` agree with
the character-level model used here.
-/

namespace FrameworkDb

/-- A bound parameter value (`db.Statement.Vars` element), by the cases of the
`switch v := param.(type)` in `getFullSQL`: Go `string`, `[]byte`, `time.Time`,
`nil`, and a default case carrying its `fmt.Sprintf` rendering with the v verb
(the code never inspects such a value beyond printing it). -/
inductive GoValue where
  | str (s : String)
  | bytes (b : List Char)
  | time (year month day hour minute second : Nat)
  | null
  | other (printed : String)
deriving DecidableEq, Repr

/-- Zero-padding to two digits, as the `04`, `05`, ... components of Go's
reference layout `"2006-01-02 15:04:05"`. -/
def pad2 (n : Nat) : String :=
  if n < 10 then "0" ++ toString n else toString n

/-- Zero-padding to four digits, as the `2006` year component of the layout. -/
def pad4 (n : Nat) : String :=
  if n < 10 then "000" ++ toString n
  else if n < 100 then "00" ++ toString n
  else if n < 1000 then "0" ++ toString n
  else toString n

/-- `v.Format("2006-01-02 15:04:05")` for a `time.Time` value. -/
def formatTimeGo (year month day hour minute second : Nat) : String :=
  pad4 year ++ "-" ++ pad2 month ++ "-" ++ pad2 day ++ " " ++
    pad2 hour ++ ":" ++ pad2 minute ++ ":" ++ pad2 second

/-- `strings.ReplaceAll(v, "'", "''")`: every single-quote character is
doubled (the pattern is the single character `\x27`). -/
def doubleQuotes : List Char → List Char
  | [] => []
  | c :: cs => if c = '\x27' then c :: c :: doubleQuotes cs else c :: doubleQuotes cs

/-- The `switch v := param.(type)` block of `getFullSQL` producing `paramStr`:
strings and byte slices are single-quoted with internal quotes doubled, times
are single-quoted in the fixed layout, `nil` becomes `NULL`, everything else
is its default `fmt` rendering, unquoted. -/
def formatVar : GoValue → List Char
  | .str s => '\x27' :: (doubleQuotes s.data ++ ['\x27'])
  | .bytes b => '\x27' :: (doubleQuotes b ++ ['\x27'])
  | .time y mo d h mi s => '\x27' :: ((formatTimeGo y mo d h mi s).data ++ ['\x27'])
  | .null => "NULL".data
  | .other printed => printed.data

/-- One step of the loop body of `getFullSQL`: `pos := strings.Index(result, "?")`
followed by `result = result[:pos] + paramStr + result[pos+1:]`. Returns `none`
when `pos == -1` (no placeholder left in the current string). -/
def replaceFirstQ (rep : List Char) : List Char → Option (List Char)
  | [] => none
  | c :: cs =>
      if c = '?' then some (rep ++ cs)
      else (replaceFirstQ rep cs).map (fun r => c :: r)

/-- The `for paramIndex < len(db.Statement.Vars)` loop of `getFullSQL`: each
iteration finds the first `?` of the CURRENT string (the scan restarts at the
beginning, so text substituted by earlier iterations is rescanned), replaces it
with the formatted next parameter, and advances; it breaks when no `?` is found. -/
def substVars : List Char → List GoValue → List Char
  | s, [] => s
  | s, v :: vs =>
      match replaceFirstQ (formatVar v) s with
      | none => s
      | some s2 => substVars s2 vs

/-- `gorm.Statement`, restricted to the fields this code reads: `SQL.String()`,
`Vars`, whether `Model != nil`, and `Table`. (`Statement.Context` is only ever
dereferenced, never inspected, so it is not carried.) -/
structure Statement where
  sql : String
  vars : List GoValue
  hasModel : Bool
  table : String
deriving DecidableEq, Repr

/-- A value held in the instance-scoped scratch store (`InstanceSet`/`InstanceGet`):
the code stores a `time.Time` under `_start_time` and a `trace.Span` under
`_span`; `otherVal` stands for a value of any other dynamic type, on which the
type assertions in `after` fail. -/
inductive ScratchVal where
  | timeVal (t : Int)
  | spanVal
  | otherVal
deriving DecidableEq, Repr

/-- `*gorm.DB` as seen by the plugin: the possibly-nil `Statement`, the `Error`
field (by its message), and the two scratch keys the plugin uses. -/
structure GormDB where
  stmt : Option Statement
  err : Option String
  scratchStart : Option ScratchVal
  scratchSpan : Option ScratchVal
deriving DecidableEq, Repr

/-- Go's `unicode.IsSpace` restricted to the Latin-1 range, as used by
`strings.TrimSpace`. -/
def goIsSpace (c : Char) : Bool :=
  c = ' ' || c = '\t' || c = '\n' || c = '\x0b' || c = '\x0c' || c = '\r' ||
    c = '\x85' || c = '\xa0'

/-- `strings.TrimSpace`. -/
def goTrimSpace (s : String) : String :=
  String.mk (((s.data.dropWhile goIsSpace).reverse.dropWhile goIsSpace).reverse)

/-- `strings.ToUpper` (the SQL text handled here is ASCII). -/
def goToUpper (s : String) : String :=
  String.mk (s.data.map Char.toUpper)

/-- `strings.HasPrefix s p`. -/
def hasPrefixGo (s p : String) : Bool :=
  p.data.isPrefixOf s.data

/-- `getOperationType` from `src/postgresql.go`: nil statement gives
`"unknown"`; a non-empty SQL text is trimmed and upper-cased and, when at
least 6 characters long, matched against the four verb beginnings with an
early return; on fall-through (empty text, short text, or no match) a bound
model or table gives `"query"`, else `"other"`. -/
def getOperationType (db : GormDB) : String :=
  match db.stmt with
  | none => "unknown"
  | some st =>
      let sql := st.sql
      let fromSql : Option String :=
        if 0 < sql.length then
          let sqlUpper := goToUpper (goTrimSpace sql)
          if 6 ≤ sqlUpper.length then
            if hasPrefixGo sqlUpper "SELECT" then some "select"
            else if hasPrefixGo sqlUpper "INSERT" then some "insert"
            else if hasPrefixGo sqlUpper "UPDATE" then some "update"
            else if hasPrefixGo sqlUpper "DELETE" then some "delete"
            else none
          else none
        else none
      match fromSql with
      | some op => op
      | none => if st.hasModel || st.table ≠ "" then "query" else "other"

/-- `getFullSQL` from `src/postgresql.go`: empty string for a nil statement or
empty SQL text; the text unchanged when there are no parameters; otherwise the
substitution loop `substVars`. -/
def getFullSQL (db : GormDB) : String :=
  match db.stmt with
  | none => ""
  | some st =>
      if st.sql = "" then ""
      else if st.vars = [] then st.sql
      else String.mk (substVars st.sql.data st.vars)

/-- An attribute value attached to spans, logs and metrics; numeric
measurements (durations, counts) are carried as integers. -/
inductive Attr where
  | str (v : String)
  | int (v : Int)
deriving DecidableEq, Repr

/-- One observable telemetry action, in emission order. -/
inductive Event where
  | spanStart (name : String) (attrs : List (String × Attr))
  | spanSetAttrs (attrs : List (String × Attr))
  | spanSetStatus (isError : Bool) (msg : String)
  | spanRecordError (msg : String)
  | spanEnd
  | logInfo (msg : String) (fields : List (String × Attr))
  | metricInc (metric : String) (labels : List String)
  | metricObserve (metric : String) (labels : List String)
deriving DecidableEq, Repr

/-- Whether an event is a span creation. -/
def Event.isSpanStartEv : Event → Bool
  | .spanStart _ _ => true
  | _ => false

/-- Whether an event is a span termination. -/
def Event.isSpanEndEv : Event → Bool
  | .spanEnd => true
  | _ => false

/-- Whether an event is a metric emission (counter increment or histogram
observation). -/
def Event.isMetricEv : Event → Bool
  | .metricInc _ _ => true
  | .metricObserve _ _ => true
  | _ => false

/-- Whether an event is a structured log record. -/
def Event.isLogEv : Event → Bool
  | .logInfo _ _ => true
  | _ => false

/-- Number of `spanStart` events in a trace. -/
def spanStartCount (evs : List Event) : Nat :=
  (evs.filter Event.isSpanStartEv).length

/-- Number of `spanEnd` events in a trace. -/
def spanEndCount (evs : List Event) : Nat :=
  (evs.filter Event.isSpanEndEv).length

/-- Outcome of running a callback: the telemetry it emitted, or a Go runtime
panic (nil-pointer dereference) together with the telemetry emitted before
the panic. -/
inductive RunResult where
  | ok (evs : List Event)
  | panicked (evs : List Event)
deriving DecidableEq, Repr

/-- The events a run emitted, whether or not it then panicked. -/
def RunResult.events : RunResult → List Event
  | .ok evs => evs
  | .panicked evs => evs

/-- Whether the run ended in a panic. -/
def RunResult.isPanic : RunResult → Bool
  | .panicked _ => true
  | .ok _ => false

/-- `GormTracePlugin.before`: records `time.Now()` under `_start_time`; when
tracing is enabled it classifies the operation, starts a span
`"gorm."+operation` with the `db.system`/`db.operation` attributes and stores
the span handle under `_span`. `now` stands for the sampled clock value. -/
def beforeRun (enableTrace : Bool) (now : Int) (db : GormDB) : GormDB × List Event :=
  let db1 : GormDB := { db with scratchStart := some (.timeVal now) }
  if enableTrace then
    let operation := getOperationType db1
    ({ db1 with scratchSpan := some .spanVal },
      [Event.spanStart ("gorm." ++ operation)
        [("db.system", .str "sql"), ("db.operation", .str operation)]])
  else (db1, [])

/-- `GormTracePlugin.after`: returns immediately when `_start_time` is absent
or not a `time.Time`; otherwise computes duration, operation, status and the
rendered SQL, updates and ends the span when tracing is enabled and a span is
stored, then logs `"SQL cost time"` via `log.FromContext(db.Statement.Context)`
— a nil-pointer dereference (panic) when `db.Statement` is nil — and finally
emits the two metrics when metrics are enabled. `now2` stands for the clock
value sampled by `time.Since`. -/
def afterRun (enableTrace metricsOn : Bool) (now2 : Int) (db : GormDB) : RunResult :=
  match db.scratchStart with
  | none => .ok []
  | some sv =>
      match sv with
      | .spanVal => .ok []
      | .otherVal => .ok []
      | .timeVal ts =>
          let duration := now2 - ts
          let operation := getOperationType db
          let status := if db.err.isSome then "error" else "success"
          let sql := getFullSQL db
          let spanEvents : List Event :=
            if enableTrace then
              match db.scratchSpan with
              | some .spanVal =>
                  [Event.spanSetAttrs
                      [("db.statement", .str sql), ("db.operation", .str operation),
                        ("db.duration_ms", .int duration)]] ++
                    (match db.err with
                      | some m => [Event.spanSetStatus true m, Event.spanRecordError m]
                      | none => [Event.spanSetStatus false ""]) ++
                    [Event.spanEnd]
              | _ => []
            else []
          match db.stmt with
          | none => .panicked spanEvents
          | some _ =>
              let logEv := Event.logInfo "SQL cost time"
                [("cost_ms", .int duration), ("sql", .str sql),
                  ("operation", .str operation), ("status", .str status)]
              let metricEvents : List Event :=
                if metricsOn then
                  [Event.metricInc "DatabaseQueryTotal" [operation, status],
                    Event.metricObserve "DatabaseQueryDuration" [operation]]
                else []
              .ok (spanEvents ++ [logEv] ++ metricEvents)

/-- The effect of the wrapped operation between `before` and `after`: the
driver builds the SQL text and parameter list and sets `db.Error`; the
instance-scoped scratch store is untouched. A nil `Statement` stays nil. -/
def applyExec (db : GormDB) (newSql : String) (newVars : List GoValue)
    (newErr : Option String) : GormDB :=
  { db with
      err := newErr,
      stmt := db.stmt.map (fun st => { st with sql := newSql, vars := newVars }) }

/-- A Redis command as the hook sees it: `cmd.Name()` and `cmd.String()`. -/
structure RedisCmd where
  name : String
  text : String
deriving DecidableEq, Repr

/-- The `operation` computation of both Redis hooks: `cmd.Name()`, with empty
name replaced by `"unknown"`. -/
def redisOpName (cmd : RedisCmd) : String :=
  if cmd.name = "" then "unknown" else cmd.name

/-- The closure returned by `traceRedisHook.ProcessHook`, as a function of the
inputs that determine its behaviour: the tracing flag, the metrics gate, the
command, the error returned by `next`, and the measured duration. Returns the
telemetry trace in emission order (the deferred `span.End()` runs last) and
the value returned to the caller. -/
def processHookRun (enableTrace metricsOn : Bool) (cmd : RedisCmd)
    (nextErr : Option String) (duration : Int) : List Event × Option String :=
  let operation := redisOpName cmd
  let status := if nextErr.isSome then "error" else "success"
  let startEvents : List Event :=
    if enableTrace then
      [Event.spanStart ("redis." ++ operation)
        [("db.system", .str "redis"), ("db.operation", .str operation)]]
    else []
  let spanUpdateEvents : List Event :=
    if enableTrace then
      [Event.spanSetAttrs
          [("db.statement", .str cmd.text), ("db.duration_ms", .int duration)]] ++
        (match nextErr with
          | some m => [Event.spanSetStatus true m, Event.spanRecordError m]
          | none => [Event.spanSetStatus false ""])
    else []
  let logEvents : List Event :=
    [Event.logInfo "Redis command success"
      [("operation", .str operation), ("cmd", .str cmd.text),
        ("duration", .int duration), ("status", .str status)]]
  let metricEvents : List Event :=
    if metricsOn then
      [Event.metricInc "RedisOperationTotal" [operation, status],
        Event.metricObserve "RedisOperationDuration" [operation]]
    else []
  let endEvents : List Event := if enableTrace then [Event.spanEnd] else []
  (startEvents ++ spanUpdateEvents ++ logEvents ++ metricEvents ++ endEvents, nextErr)

/-- The closure returned by `traceRedisHook.ProcessPipelineHook`: span name
fixed to `"redis.pipeline"` with a `db.command_count` attribute, log message
`"Redis pipeline success"` with the command count, metrics labelled with the
fixed operation `"pipeline"`. -/
def processPipelineHookRun (enableTrace metricsOn : Bool) (cmds : List RedisCmd)
    (nextErr : Option String) (duration : Int) : List Event × Option String :=
  let status := if nextErr.isSome then "error" else "success"
  let startEvents : List Event :=
    if enableTrace then
      [Event.spanStart "redis.pipeline"
        [("db.system", .str "redis"), ("db.operation", .str "pipeline"),
          ("db.command_count", .int cmds.length)]]
    else []
  let spanUpdateEvents : List Event :=
    if enableTrace then
      [Event.spanSetAttrs [("db.duration_ms", .int duration)]] ++
        (match nextErr with
          | some m => [Event.spanSetStatus true m, Event.spanRecordError m]
          | none => [Event.spanSetStatus false ""])
    else []
  let logEvents : List Event :=
    [Event.logInfo "Redis pipeline success"
      [("cmd_count", .int cmds.length), ("duration", .int duration),
        ("status", .str status)]]
  let metricEvents : List Event :=
    if metricsOn then
      [Event.metricInc "RedisOperationTotal" ["pipeline", status],
        Event.metricObserve "RedisOperationDuration" ["pipeline"]]
    else []
  let endEvents : List Event := if enableTrace then [Event.spanEnd] else []
  (startEvents ++ spanUpdateEvents ++ logEvents ++ metricEvents ++ endEvents, nextErr)

/-- One callback registration performed by `GormTracePlugin.Initialize`:
the verb processor (`Create`, `Query`, ...), whether it is a before or after
hook, the anchor callback it is inserted relative to, and the registered
name. -/
structure Registration where
  verb : String
  isBefore : Bool
  anchor : String
  name : String
deriving DecidableEq, Repr

/-- The twelve `Register` calls of `GormTracePlugin.Initialize`, in program
order (lines 329–342 of the plugin source). -/
def gormRegistrations : List Registration :=
  [⟨"Create", true, "gorm:before_create", "core:before"⟩,
    ⟨"Query", true, "gorm:query", "core:before"⟩,
    ⟨"Delete", true, "gorm:before_delete", "core:before"⟩,
    ⟨"Update", true, "gorm:setup_reflect_value", "core:before"⟩,
    ⟨"Row", true, "gorm:row", "core:before"⟩,
    ⟨"Raw", true, "gorm:raw", "core:before"⟩,
    ⟨"Create", false, "gorm:after_create", "core:after"⟩,
    ⟨"Query", false, "gorm:after_query", "core:after"⟩,
    ⟨"Delete", false, "gorm:after_delete", "core:after"⟩,
    ⟨"Update", false, "gorm:after_update", "core:after"⟩,
    ⟨"Row", false, "gorm:row", "core:after"⟩,
    ⟨"Raw", false, "gorm:raw", "core:after"⟩]

/-- `GormTracePlugin.Initialize`: performs the twelve registrations in order
against the handle's registry (whose per-registration outcome is the
environment `outcome`), assigns every returned error to the blank identifier
(`_ =`), and returns the named result `err`, which is never assigned: the
first component records the discarded outcomes, the second is the value
`Initialize` returns to its caller. -/
def initializeRun (outcome : Registration → Option String) :
    List (Option String) × Option String :=
  (gormRegistrations.map outcome, none)

/-- The classifier contract as the spec words it, amended to the code's
fall-through behaviour: (1) nil descriptor → `"unknown"`; (2) trimmed,
upper-cased text at least six characters long beginning with a known verb →
that lowercase verb; (3) otherwise a bound model or table → `"query"`;
(4) otherwise → `"other"`. -/
def classifySpec (db : GormDB) : String :=
  match db.stmt with
  | none => "unknown"
  | some st =>
      let u := goToUpper (goTrimSpace st.sql)
      if 6 ≤ u.length ∧ hasPrefixGo u "SELECT" = true then "select"
      else if 6 ≤ u.length ∧ hasPrefixGo u "INSERT" = true then "insert"
      else if 6 ≤ u.length ∧ hasPrefixGo u "UPDATE" = true then "update"
      else if 6 ≤ u.length ∧ hasPrefixGo u "DELETE" = true then "delete"
      else if st.hasModel || st.table ≠ "" then "query"
      else "other"

/-- The full observable trace of one relational operation: `before` fires,
the driver executes the statement (installing the built SQL text, the bound
variables and the terminal error), then `after` fires on the same instance
scope. -/
def gormPairEvents (enableTrace metricsOn : Bool) (now now2 : Int) (db0 : GormDB)
    (newSql : String) (newVars : List GoValue) (newErr : Option String) : List Event :=
  (beforeRun enableTrace now db0).2 ++
    (afterRun enableTrace metricsOn now2
      (applyExec (beforeRun enableTrace now db0).1 newSql newVars newErr)).events

end FrameworkDb

namespace FrameworkDb

/-- C2 counterexample input: a descriptor with a (non-nil) statement whose
text is empty and which binds no model and no table. -/
def emptyDescriptor : GormDB :=
  ⟨some ⟨"", [], false, ""⟩, none, none, none⟩

theorem getOperationType_eq_classifySpec (db : GormDB) :
    getOperationType db = classifySpec db := by
  obtain ⟨stmt, err, s1, s2⟩ := db
  cases stmt with
  | none => rfl
  | some st =>
      obtain ⟨sql, vars, hasModel, table⟩ := st
      by_cases hlen : 0 < sql.length
      · by_cases h6 : 6 ≤ (goToUpper (goTrimSpace sql)).length
        · by_cases hS : hasPrefixGo (goToUpper (goTrimSpace sql)) "SELECT" = true
          · simp [getOperationType, classifySpec, hlen, h6, hS]
          · by_cases hI : hasPrefixGo (goToUpper (goTrimSpace sql)) "INSERT" = true
            · simp [getOperationType, classifySpec, hlen, h6, hS, hI]
            · by_cases hU : hasPrefixGo (goToUpper (goTrimSpace sql)) "UPDATE" = true
              · simp [getOperationType, classifySpec, hlen, h6, hS, hI, hU]
              · by_cases hD : hasPrefixGo (goToUpper (goTrimSpace sql)) "DELETE" = true
                · simp [getOperationType, classifySpec, hlen, h6, hS, hI, hU, hD]
                · simp [getOperationType, classifySpec, hlen, h6, hS, hI, hU, hD]
        · simp [getOperationType, classifySpec, hlen, h6]
      · have h0 : sql.length = 0 := Nat.eq_zero_of_not_pos hlen
        have hempty : sql = "" := by
          cases sql with
          | mk l =>
              cases l with
              | nil => rfl
              | cons c cs => simp [String.length] at h0
        subst hempty
        rfl

/-- C2 counterexample: on a descriptor with a non-nil statement, empty text,
and no bound model or table, `getOperationType` returns `"other"`, not the
`"unknown"` the claim requires. -/
theorem c2_counterexample :
    getOperationType emptyDescriptor = "other" ∧
    getOperationType emptyDescriptor ≠ "unknown" := by
  decide

/-- C2 (amended): the classifier's priority as coded — a nil statement gives
`"unknown"`; trimmed, upper-cased text of length at least six beginning with
SELECT/INSERT/UPDATE/DELETE gives that lowercase verb; on any fall-through
(empty text, short text, or any other beginning) a bound model or table gives
`"query"`, else `"other"`. In particular `"update users set x=1"` in any case
gives `"update"`, empty text with a bound model gives `"query"`,
`"CREATE TABLE x"` with nothing bound gives `"other"` but with a bound model
gives `"query"`, and only a nil statement gives `"unknown"`. -/
theorem c2_classifier_amended :
    (∀ db : GormDB, getOperationType db = classifySpec db) ∧
    getOperationType ⟨some ⟨"update users set x=1", [], false, ""⟩, none, none, none⟩
      = "update" ∧
    getOperationType ⟨some ⟨"  UpDaTe users SET x=1", [], false, ""⟩, none, none, none⟩
      = "update" ∧
    getOperationType ⟨some ⟨"", [], true, ""⟩, none, none, none⟩ = "query" ∧
    getOperationType ⟨some ⟨"CREATE TABLE x", [], false, ""⟩, none, none, none⟩
      = "other" ∧
    getOperationType ⟨some ⟨"CREATE TABLE x", [], true, ""⟩, none, none, none⟩
      = "query" ∧
    getOperationType ⟨none, none, none, none⟩ = "unknown" :=
  ⟨getOperationType_eq_classifySpec, by decide, by decide, by decide, by decide,
    by decide, by decide⟩

/-- C1 counterexample: with a registry on which the Create/before registration
fails (non-nil outcome), the attach routine still returns nil — no error
identifying the failing verb is ever produced. -/
theorem c1_counterexample :
    ((fun r : Registration =>
        if r.verb = "Create" ∧ r.isBefore = true then some "duplicate callback name"
        else none)
      ⟨"Create", true, "gorm:before_create", "core:before"⟩ ≠ (none : Option String)) ∧
    (initializeRun (fun r =>
        if r.verb = "Create" ∧ r.isBefore = true then some "duplicate callback name"
        else none)).1.head? = some (some "duplicate callback name") ∧
    (initializeRun (fun r =>
        if r.verb = "Create" ∧ r.isBefore = true then some "duplicate callback name"
        else none)).2 = none := by
  decide

/-- C1 (amended): the attach routine performs the six before and six after
registrations in program order but assigns every registration result to the
blank identifier and always returns nil; a failing registration is silently
ignored, never surfaced to the caller. -/
theorem c1_attach_discards_registration_errors (outcome : Registration → Option String) :
    (initializeRun outcome).2 = none ∧
    (initializeRun outcome).1 = gormRegistrations.map outcome :=
  ⟨rfl, rfl⟩

theorem replaceFirstQ_of_not_mem (rep : List Char) (s : List Char) (h : '?' ∉ s) :
    replaceFirstQ rep s = none := by
  induction s with
  | nil => rfl
  | cons c cs ih =>
      simp only [List.mem_cons, not_or] at h
      have hc : ¬c = '?' := fun hc => h.1 hc.symm
      simp [replaceFirstQ, hc, ih h.2]

theorem replaceFirstQ_append (rep pre post : List Char) (h : '?' ∉ pre) :
    replaceFirstQ rep (pre ++ '?' :: post) = some (pre ++ rep ++ post) := by
  induction pre with
  | nil => simp [replaceFirstQ]
  | cons c cs ih =>
      simp only [List.mem_cons, not_or] at h
      have hc : ¬c = '?' := fun hc => h.1 hc.symm
      simp [replaceFirstQ, hc, ih h.2]

theorem substVars_no_placeholder (s : List Char) (vs : List GoValue) (h : '?' ∉ s) :
    substVars s vs = s := by
  cases vs with
  | nil => rfl
  | cons v vs => simp [substVars, replaceFirstQ_of_not_mem (formatVar v) s h]

/-- C3 counterexample: a `?` inside an already-substituted parameter value IS
treated as a placeholder — rendering `"a=? AND b=?"` with parameters
`["x?y", 2]` substitutes the second parameter into the quoted text of the
first, giving `a='x2y' AND b=?` rather than the claimed `a='x?y' AND b=2`. -/
theorem c3_counterexample :
    getFullSQL ⟨some ⟨"a=? AND b=?", [GoValue.str "x?y", GoValue.other "2"],
        false, ""⟩, none, none, none⟩ = "a=\x27x2y\x27 AND b=?" ∧
    getFullSQL ⟨some ⟨"a=? AND b=?", [GoValue.str "x?y", GoValue.other "2"],
        false, ""⟩, none, none, none⟩ ≠ "a=\x27x?y\x27 AND b=2" := by
  decide

/-- C3 (amended): the renderer returns the template unchanged when the
parameter list is empty; otherwise each step replaces the leftmost `?` of the
CURRENT string (so text substituted by earlier steps is rescanned, and a `?`
inside a substituted value can be consumed) with the string form of the next
unconsumed parameter; it stops when no `?` remains (extra parameters ignored)
or parameters run out (leftover placeholders verbatim). -/
theorem c3_renderer_amended :
    (∀ (sql : String) (hasModel : Bool) (table : String) (e : Option String)
        (s1 s2 : Option ScratchVal),
      getFullSQL ⟨some ⟨sql, [], hasModel, table⟩, e, s1, s2⟩ = sql) ∧
    (∀ (pre post : List Char) (v : GoValue) (vs : List GoValue), '?' ∉ pre →
      substVars (pre ++ '?' :: post) (v :: vs) =
        substVars (pre ++ formatVar v ++ post) vs) ∧
    (∀ (s : List Char) (vs : List GoValue), '?' ∉ s → substVars s vs = s) := by
  refine ⟨?_, ?_, ?_⟩
  · intro sql hm tb e s1 s2
    by_cases h : sql = ""
    · subst h; rfl
    · simp [getFullSQL, h]
  · intro pre post v vs h
    simp [substVars, replaceFirstQ_append (formatVar v) pre post h]
  · intro s vs h
    exact substVars_no_placeholder s vs h

/-- C3 witness: the amended renderer claim applied at concrete inputs. -/
theorem c3_renderer_amended_witness :
    getFullSQL ⟨some ⟨"SELECT 1", [], false, ""⟩, none, none, none⟩ = "SELECT 1" ∧
    substVars (['a', '='] ++ '?' :: []) [GoValue.other "7"] =
      substVars (['a', '='] ++ formatVar (GoValue.other "7") ++ []) [] ∧
    substVars ['x', 'y'] [GoValue.null] = ['x', 'y'] :=
  ⟨c3_renderer_amended.1 "SELECT 1" false "" none none none,
    c3_renderer_amended.2.1 ['a', '='] [] (GoValue.other "7") [] (by decide),
    c3_renderer_amended.2.2 ['x', 'y'] [GoValue.null] (by decide)⟩

/-- C4: value formatting — strings are single-quoted with internal quotes
doubled, byte sequences are formatted exactly as the corresponding string,
times are single-quoted in the fixed `YYYY-MM-DD HH:MM:SS` layout, nil is the
literal `NULL`, and any other value is its default rendering unquoted; hence
the two end-to-end example renders of the claim. -/
theorem c4_value_formatting :
    getFullSQL ⟨some ⟨"SELECT * FROM t WHERE id=? AND name=?",
        [GoValue.other "42", GoValue.str "o\x27brien"], false, ""⟩,
      none, none, none⟩ = "SELECT * FROM t WHERE id=42 AND name=\x27o\x27\x27brien\x27" ∧
    getFullSQL ⟨some ⟨"? ?", [GoValue.null, GoValue.other "3.5"], false, ""⟩,
      none, none, none⟩ = "NULL 3.5" ∧
    (∀ b : List Char, formatVar (GoValue.bytes b) = formatVar (GoValue.str (String.mk b))) ∧
    String.mk (formatVar (GoValue.time 2024 3 7 9 5 2)) = "\x272024-03-07 09:05:02\x27" ∧
    String.mk (formatVar GoValue.null) = "NULL" ∧
    (∀ s : String, formatVar (GoValue.other s) = s.data) :=
  ⟨by decide, by decide, fun b => rfl, by decide, rfl, fun s => rfl⟩

theorem gormPair_trace_on_counts (m : Bool) (now now2 : Int) (db0 : GormDB)
    (ns : String) (nv : List GoValue) (ne : Option String) :
    spanStartCount (gormPairEvents true m now now2 db0 ns nv ne) = 1 ∧
    spanEndCount (gormPairEvents true m now now2 db0 ns nv ne) = 1 := by
  obtain ⟨stmt, err, s1, s2⟩ := db0
  cases stmt <;> cases ne <;> cases m <;>
    simp [gormPairEvents, beforeRun, afterRun, applyExec, RunResult.events,
      spanStartCount, spanEndCount, Event.isSpanStartEv, Event.isSpanEndEv]

theorem gormPair_error_recorded (m : Bool) (now now2 : Int) (db0 : GormDB)
    (ns : String) (nv : List GoValue) (msg : String) :
    Event.spanSetStatus true msg ∈ gormPairEvents true m now now2 db0 ns nv (some msg) ∧
    Event.spanRecordError msg ∈ gormPairEvents true m now now2 db0 ns nv (some msg) := by
  obtain ⟨stmt, err, s1, s2⟩ := db0
  cases stmt <;> cases m <;>
    simp [gormPairEvents, beforeRun, afterRun, applyExec, RunResult.events]

theorem gormPair_trace_off_counts (m : Bool) (now now2 : Int) (db0 : GormDB)
    (ns : String) (nv : List GoValue) (ne : Option String) :
    spanStartCount (gormPairEvents false m now now2 db0 ns nv ne) = 0 ∧
    spanEndCount (gormPairEvents false m now now2 db0 ns nv ne) = 0 := by
  obtain ⟨stmt, err, s1, s2⟩ := db0
  cases stmt <;> cases ne <;> cases m <;>
    simp [gormPairEvents, beforeRun, afterRun, applyExec, RunResult.events,
      spanStartCount, spanEndCount, Event.isSpanStartEv, Event.isSpanEndEv]

/-- C5: in the relational before→execute→after lifecycle with tracing enabled,
exactly one span is started (by `before`) and exactly one span is ended (by
`after`), on every exit path — including when the operation set an error, in
which case an Error status and the error are recorded — and with tracing
disabled no span event occurs at all; likewise for the cache tracer's single
command and pipeline wrappers, where the deferred end runs on every return. -/
theorem c5_span_lifecycle :
    (∀ (m : Bool) (now now2 : Int) (db0 : GormDB) (ns : String) (nv : List GoValue)
        (ne : Option String),
      spanStartCount (gormPairEvents true m now now2 db0 ns nv ne) = 1 ∧
      spanEndCount (gormPairEvents true m now now2 db0 ns nv ne) = 1) ∧
    (∀ (m : Bool) (now now2 : Int) (db0 : GormDB) (ns : String) (nv : List GoValue)
        (msg : String),
      Event.spanSetStatus true msg ∈ gormPairEvents true m now now2 db0 ns nv (some msg) ∧
      Event.spanRecordError msg ∈ gormPairEvents true m now now2 db0 ns nv (some msg)) ∧
    (∀ (m : Bool) (now now2 : Int) (db0 : GormDB) (ns : String) (nv : List GoValue)
        (ne : Option String),
      spanStartCount (gormPairEvents false m now now2 db0 ns nv ne) = 0 ∧
      spanEndCount (gormPairEvents false m now now2 db0 ns nv ne) = 0) ∧
    (∀ (m : Bool) (cmd : RedisCmd) (ne : Option String) (d : Int),
      spanStartCount (processHookRun true m cmd ne d).1 = 1 ∧
      spanEndCount (processHookRun true m cmd ne d).1 = 1 ∧
      spanStartCount (processHookRun false m cmd ne d).1 = 0 ∧
      spanEndCount (processHookRun false m cmd ne d).1 = 0) ∧
    (∀ (m : Bool) (cmd : RedisCmd) (d : Int) (msg : String),
      Event.spanSetStatus true msg ∈ (processHookRun true m cmd (some msg) d).1 ∧
      Event.spanRecordError msg ∈ (processHookRun true m cmd (some msg) d).1) ∧
    (∀ (m : Bool) (cmds : List RedisCmd) (ne : Option String) (d : Int),
      spanStartCount (processPipelineHookRun true m cmds ne d).1 = 1 ∧
      spanEndCount (processPipelineHookRun true m cmds ne d).1 = 1 ∧
      spanStartCount (processPipelineHookRun false m cmds ne d).1 = 0 ∧
      spanEndCount (processPipelineHookRun false m cmds ne d).1 = 0) := by
  refine ⟨gormPair_trace_on_counts, gormPair_error_recorded,
    gormPair_trace_off_counts, ?_, ?_, ?_⟩
  · intro m cmd ne d
    cases m <;> cases ne <;>
      simp [processHookRun, spanStartCount, spanEndCount,
        Event.isSpanStartEv, Event.isSpanEndEv]
  · intro m cmd d msg
    cases m <;> simp [processHookRun]
  · intro m cmds ne d
    cases m <;> cases ne <;>
      simp [processPipelineHookRun, spanStartCount, spanEndCount,
        Event.isSpanStartEv, Event.isSpanEndEv]

/-- C6 diverges from the code: when `before` ran on a handle whose `Statement`
is nil (so a start time is recorded), `after` reaches the
`log.FromContext(db.Statement.Context)` call without the nil guard that
`getOperationType` and `getFullSQL` both perform, dereferences the nil
pointer, and panics the caller's operation — with tracing enabled or not. -/
theorem c6_nil_statement_panics :
    (afterRun true true 5
      (applyExec (beforeRun true 0 ⟨none, none, none, none⟩).1 "" [] none)).isPanic
      = true ∧
    (afterRun false true 5
      (applyExec (beforeRun false 0 ⟨none, none, none, none⟩).1 "" [] none)).isPanic
      = true := by
  decide

/-- C7: both cache wrappers return to the caller exactly the error value
produced by `next`, unchanged, whatever the tracing flag, metrics gate,
command(s) and duration. -/
theorem c7_error_passthrough (e m : Bool) (cmd : RedisCmd) (cmds : List RedisCmd)
    (ne : Option String) (d : Int) :
    (processHookRun e m cmd ne d).2 = ne ∧
    (processPipelineHookRun e m cmds ne d).2 = ne :=
  ⟨rfl, rfl⟩

/-- C8: when no start time is recorded in the instance-scoped scratch state,
the relational after callback returns immediately, emitting no span update,
no log record and no metric. -/
theorem c8_after_without_before_is_noop (e m : Bool) (now2 : Int) (db : GormDB)
    (h : db.scratchStart = none) :
    afterRun e m now2 db = RunResult.ok [] := by
  obtain ⟨stmt, err, s1, s2⟩ := db
  simp only at h
  subst h
  rfl

/-- C8 witness: the no-op theorem applied to a concrete state with an error,
a span handle, and no recorded start time. -/
theorem c8_after_without_before_witness :
    afterRun true true 7 ⟨some ⟨"SELECT 1", [], false, ""⟩, some "boom", none,
      some ScratchVal.spanVal⟩ = RunResult.ok [] :=
  c8_after_without_before_is_noop true true 7 _ rfl

/-- C9: the pipeline wrapper's metric emissions carry the fixed operation
label `"pipeline"` and its log record the fixed message with
`cmd_count = len(cmds)`, independent of the verbs of the contained commands;
with tracing on, the span starts as `"redis.pipeline"` with a
`db.command_count` attribute equal to the exact batch size. -/
theorem c9_pipeline_labels (e m : Bool) (cmds : List RedisCmd) (ne : Option String)
    (d : Int) :
    ((processPipelineHookRun e m cmds ne d).1.filter Event.isMetricEv =
      if m then
        [Event.metricInc "RedisOperationTotal"
            ["pipeline", if ne.isSome then "error" else "success"],
          Event.metricObserve "RedisOperationDuration" ["pipeline"]]
      else []) ∧
    ((processPipelineHookRun e m cmds ne d).1.filter Event.isLogEv =
      [Event.logInfo "Redis pipeline success"
        [("cmd_count", Attr.int cmds.length), ("duration", Attr.int d),
          ("status", Attr.str (if ne.isSome then "error" else "success"))]]) ∧
    ((processPipelineHookRun true m cmds ne d).1.filter Event.isSpanStartEv =
      [Event.spanStart "redis.pipeline"
        [("db.system", Attr.str "redis"), ("db.operation", Attr.str "pipeline"),
          ("db.command_count", Attr.int cmds.length)]]) := by
  cases e <;> cases m <;> cases ne <;>
    simp [processPipelineHookRun, Event.isMetricEv, Event.isLogEv, Event.isSpanStartEv]

/-- C10: the log record emitted by the single-command wrapper always carries
the fixed message `"Redis command success"`, and the pipeline wrapper the
fixed `"Redis pipeline success"`, even when the command returned an error;
only the `status` field of the record distinguishes failure from success. -/
theorem c10_log_message_fixed (e m : Bool) (cmd : RedisCmd) (cmds : List RedisCmd)
    (ne : Option String) (d : Int) :
    ((processHookRun e m cmd ne d).1.filter Event.isLogEv =
      [Event.logInfo "Redis command success"
        [("operation", Attr.str (redisOpName cmd)), ("cmd", Attr.str cmd.text),
          ("duration", Attr.int d),
          ("status", Attr.str (if ne.isSome then "error" else "success"))]]) ∧
    ((processPipelineHookRun e m cmds ne d).1.filter Event.isLogEv =
      [Event.logInfo "Redis pipeline success"
        [("cmd_count", Attr.int cmds.length), ("duration", Attr.int d),
          ("status", Attr.str (if ne.isSome then "error" else "success"))]]) := by
  cases e <;> cases m <;> cases ne <;>
    simp [processHookRun, processPipelineHookRun, Event.isLogEv]

end FrameworkDb
